import Mathlib

set_option maxRecDepth 100000

/-!
Verification of the Thai document generation pipeline: a shallow embedding of
the resilient completion client (`src/llm.py`), the structured extractor,
validator and workflow controller (`src/workflow.py`), and the category tables
(`src/categories.py`).  External collaborators (the completion model, the
retrieval engine, the template tables of the absent `templates.py`) are
modelled as oracle parameters; everything else is translated line by line
from the Python source.  Python strings are modelled as `String`
(code-point sequences, as Python's `len`/slicing), Python floats for delays
and confidences as `ℚ`.
-/

/-- Python whitespace test (`\s`, `str.strip`), restricted to the ASCII
whitespace characters, which are the only ones the repository's data uses. -/
def isPyWs (c : Char) : Bool :=
  c == ' ' || c == '\t' || c == '\n' || c == '\r' || c == Char.ofNat 11 || c == Char.ofNat 12

/-- Python `\d` (as used by `re` on `str`): ASCII digits plus the Thai digits
U+0E50–U+0E59 (other scripts' digits are not modelled). -/
def isPyDigit (c : Char) : Bool :=
  c.isDigit || (decide (0xE50 ≤ c.toNat) && decide (c.toNat ≤ 0xE59))

/-- The character class `[A-Z_]` of the unreplaced-placeholder pattern. -/
def isPlaceholderChar (c : Char) : Bool :=
  ('A' ≤ c && c ≤ 'Z') || c == '_'

/-- The character class `[ก-๙]` (U+0E01–U+0E59) of the location pattern. -/
def isThaiChar (c : Char) : Bool :=
  decide (0xE01 ≤ c.toNat) && decide (c.toNat ≤ 0xE59)

/-- Whether `needle` starts `hay` (character-exact). -/
def listStartsWith : List Char → List Char → Bool
  | [], _ => true
  | _ :: _, [] => false
  | a :: as, b :: bs => a == b && listStartsWith as bs

/-- Whether `needle` occurs contiguously in `hay`. -/
def listOccurs (needle : List Char) : List Char → Bool
  | [] => listStartsWith needle []
  | c :: t => listStartsWith needle (c :: t) || listOccurs needle (c :: t).tail

/-- Python's containment test `needle in hay` on strings. -/
def pyIn (needle hay : String) : Bool :=
  listOccurs needle.toList hay.toList

/-- Python `str.lower()` (ASCII case mapping; the lowered text is only ever
matched against ASCII signatures such as "rate" or "network"). -/
def pyLower (s : String) : String :=
  String.mk (s.toList.map Char.toLower)

/-- Python `str.strip()`. -/
def pyStrip (s : String) : String :=
  String.mk (((s.toList.dropWhile isPyWs).reverse.dropWhile isPyWs).reverse)

/-- Python slicing `s[:n]`. -/
def pySlice (s : String) (n : Nat) : String :=
  String.mk (s.toList.take n)

/-- Python `s.replace(" ", "")`: the draft/number normalization of the
validator's document-number fidelity check. -/
def removeSpaces (s : String) : String :=
  String.mk (s.toList.filter (fun c => !(c == ' ')))

/-- Escaping of apostrophes, as Python `repr` performs inside a
single-quoted rendering. -/
def escapeQuotes : List Char → List Char
  | [] => []
  | c :: t => if c == '\'' then '\\' :: '\'' :: escapeQuotes t else c :: escapeQuotes t

/-- Python `repr` of a string as `str(list)` renders it: double quotes when the
text holds an apostrophe but no double quote, else apostrophes with inner
apostrophes escaped.  Backslash/control-character escaping beyond that is not
modelled (the repository's data contains none). -/
def pyRepr (s : String) : String :=
  if pyIn "'" s && !(pyIn "\"" s) then "\"" ++ s ++ "\""
  else "'" ++ String.mk (escapeQuotes s.toList) ++ "'"

/-- Python `str(list_of_str)`: the rendering whose length line 135 of
`workflow.py` compares with the 200-character fallback threshold. -/
def pyStrOfList (xs : List String) : String :=
  "[" ++ String.intercalate ", " (xs.map pyRepr) ++ "]"

/-- Python `re.search` over our deterministic per-position matchers: try the
pattern at every start position, leftmost success wins. -/
def reSearch {α : Type} (tryAt : List Char → Option α) : List Char → Option α
  | [] => tryAt []
  | c :: rest =>
    match tryAt (c :: rest) with
    | some r => some r
    | none => reSearch tryAt rest

/-- The boundary alternatives `(?:ตรวจ|เพื่อ|ระหว่าง|วันที่|ใน|และ|$|\s)` that end
the lazily captured location. -/
def locationStop (rest : List Char) : Bool :=
  (["ตรวจ", "เพื่อ", "ระหว่าง", "วันที่", "ใน", "และ"].map String.toList).any
      (fun t => listStartsWith t rest)
    || (match rest with
        | [] => true
        | c :: _ => isPyWs c)

/-- The lazy group `([ก-๙]+?)` of the location patterns: take Thai characters
one at a time (at least one) and stop at the first boundary. -/
def locationLazy : Nat → List Char → List Char → Option (List Char)
  | 0, _, _ => none
  | _ + 1, _, [] => none
  | fuel + 1, acc, c :: rest =>
    if isThaiChar c then
      let acc2 := acc ++ [c]
      if locationStop rest then some acc2 else locationLazy fuel acc2 rest
    else none

/-- One attempt of `marker\s*([ก-๙]+?)(?:…boundary…)` at a fixed position
(`marker` is `จังหวัด` or, in the fallback pattern, `พื้นที่`). -/
def tryLocationAt (marker : List Char) (cs : List Char) : Option String :=
  if listStartsWith marker cs then
    let rest := (cs.drop marker.length).dropWhile isPyWs
    (locationLazy (rest.length + 1) [] rest).map String.mk
  else none

/-- One attempt of the document-number pattern `(สทช\s*\d+[./]?\d*)` at a fixed
position; the capture is the whole match, internal whitespace included. -/
def tryDocNumberAt (cs : List Char) : Option String :=
  let marker := "สทช".toList
  if listStartsWith marker cs then
    let r1 := cs.drop marker.length
    let ws := r1.takeWhile isPyWs
    let r2 := r1.drop ws.length
    let ds := r2.takeWhile isPyDigit
    if ds.isEmpty then none
    else
      match r2.drop ds.length with
      | c :: r4 =>
        if c == '.' || c == '/' then
          some (String.mk (marker ++ ws ++ ds ++ [c] ++ r4.takeWhile isPyDigit))
        else some (String.mk (marker ++ ws ++ ds))
      | [] => some (String.mk (marker ++ ws ++ ds))
  else none

/-- The second alternative `256\d` of the year pattern. -/
def tryYearAltAt (cs : List Char) : Option String :=
  match cs with
  | '2' :: '5' :: '6' :: d :: _ =>
    if isPyDigit d then some (String.mk ['2', '5', '6', d]) else none
  | _ => none

/-- One attempt of the year pattern `(25\d{2}|256\d)` at a fixed position:
first alternative, then the second. -/
def tryYearAt (cs : List Char) : Option String :=
  match cs with
  | '2' :: '5' :: d1 :: d2 :: _ =>
    if isPyDigit d1 && isPyDigit d2 then some (String.mk ['2', '5', d1, d2])
    else tryYearAltAt cs
  | _ => tryYearAltAt cs

/-- Tail `\s*\d{4}` of the date-range pattern: returns how many characters it
consumes. -/
def dateCheckTail (r : List Char) : Option Nat :=
  let w := r.takeWhile isPyWs
  match r.drop w.length with
  | a :: b :: c :: d :: _ =>
    if isPyDigit a && isPyDigit b && isPyDigit c && isPyDigit d then
      some (w.length + 4)
    else none
  | _ => none

/-- Greedy `\S+` before `\s*\d{4}`: try the longest run first, backtracking one
character at a time, as the `re` engine does. -/
def dateTryNonSpace : Nat → List Char → Option Nat
  | 0, _ => none
  | m + 1, r =>
    match dateCheckTail (r.drop (m + 1)) with
    | some k => some (m + 1 + k)
    | none => dateTryNonSpace m r

/-- `\s*\S+\s*\d{4}` after the second number of the date range. -/
def dateAfterSecondNumber (rest : List Char) : Option Nat :=
  let w := rest.takeWhile isPyWs
  let r := rest.drop w.length
  (dateTryNonSpace (r.takeWhile (fun c => !(isPyWs c))).length r).map (w.length + ·)

/-- Greedy second `\d+` of the date range, longest run first with
backtracking. -/
def dateTrySecondNumber : Nat → List Char → Option Nat
  | 0, _ => none
  | k + 1, rest =>
    match dateAfterSecondNumber (rest.drop (k + 1)) with
    | some n => some (k + 1 + n)
    | none => dateTrySecondNumber k rest

/-- One attempt of the date-range pattern
`วันที่\s*(\d+\s*[-–]\s*\d+\s*\S+\s*\d{4})` at a fixed position. -/
def tryDateRangeAt (cs : List Char) : Option String :=
  let marker := "วันที่".toList
  if listStartsWith marker cs then
    let r0 := cs.drop marker.length
    let w0 := r0.takeWhile isPyWs
    let g := r0.drop w0.length
    let d1 := g.takeWhile isPyDigit
    if d1.isEmpty then none
    else
      let r1 := g.drop d1.length
      let w1 := r1.takeWhile isPyWs
      match r1.drop w1.length with
      | c :: r3 =>
        if c == '-' || c == '–' then
          let w2 := r3.takeWhile isPyWs
          let r4 := r3.drop w2.length
          match dateTrySecondNumber (r4.takeWhile isPyDigit).length r4 with
          | some n => some (String.mk (g.take (d1.length + w1.length + 1 + w2.length + n)))
          | none => none
        else none
      | [] => none
  else none

/-- One attempt of the organization pattern `บริษัท\s*([^\s,]+)` at a fixed
position. -/
def tryOrganizationAt (cs : List Char) : Option String :=
  let marker := "บริษัท".toList
  if listStartsWith marker cs then
    let r1 := (cs.drop marker.length).dropWhile isPyWs
    let run := r1.takeWhile (fun c => !(isPyWs c) && !(c == ','))
    if run.isEmpty then none else some (String.mk run)
  else none

/-- The record `extract_user_data` fills (`reference_doc` and `names` are
initialized and never assigned in the source). -/
structure ExtractedData where
  location : Option String
  doc_number : Option String
  date_range : Option String
  reference_doc : Option String
  year : Option String
  names : List String
  organization : Option String
  deriving Repr, DecidableEq

/-- `extract_user_data` of `workflow.py` (lines 153–197): deterministic
pattern-based extraction of location, document number, year, date range and
organization from the raw request. -/
def extract_user_data (user_request : String) : ExtractedData :=
  let cs := user_request.toList
  let location :=
    match reSearch (tryLocationAt "จังหวัด".toList) cs with
    | some l => some l
    | none => reSearch (tryLocationAt "พื้นที่".toList) cs
  { location := location
    doc_number := reSearch tryDocNumberAt cs
    date_range := reSearch tryDateRangeAt cs
    reference_doc := none
    year := reSearch tryYearAt cs
    names := []
    organization := reSearch tryOrganizationAt cs }

example : (extract_user_data "ขอ สทช 123").doc_number = some "สทช 123" := by decide

example : (extract_user_data "ปี 2569").year = some "2569" := by decide

example : (extract_user_data "125990").year = some "2599" := by decide

example : (extract_user_data "จังหวัดเชียงใหม่ตรวจสอบ").location = some "เชียงใหม่" := by decide

/-- `CategoryInfo` of `categories.py`: a category's display names, keywords and
validation rules (the Pydantic validator strips and filters list entries; the
module's literal data is already stripped and non-empty, so the stored models
equal the literals). -/
structure CategoryInfo where
  name : String
  name_en : String
  description : String
  keywords : List String
  required_sections : List String
  optional_sections : List String
  content_patterns : Option (List (List String))
  deriving Repr, DecidableEq

/-- The `หนังสือภายใน` (internal memo) entry of `_CATEGORY_DATA`. -/
def internalMemoInfo : CategoryInfo :=
  { name := "หนังสือภายใน"
    name_en := "Internal Memo"
    description := "บันทึกข้อความภายในหน่วยงาน เช่น ขออนุมัติ รายงานผล เชิญประชุม"
    keywords := ["บันทึกข้อความ", "ขออนุมัติ", "รายงาน", "เรียน", "หน่วยงาน",
      "ตรวจสอบ", "เชิญประชุม", "แจ้ง", "ขอความอนุเคราะห์",
      "เดินทาง", "คลื่นความถี่", "ทุบทำลาย", "สถานี"]
    required_sections := ["บันทึกข้อความ", "ส่วนราชการ", "ที่", "วันที่", "เรื่อง",
      "เรียน", "เรื่องเดิม"]
    optional_sections := ["จึงเรียนมาเพื่อ"]
    content_patterns := some [["เรื่องเพื่อพิจารณา"], ["ข้อเท็จจริง"]] }

/-- The `หนังสือภายนอก` (external letter) entry of `_CATEGORY_DATA`. -/
def externalLetterInfo : CategoryInfo :=
  { name := "หนังสือภายนอก"
    name_en := "External Letter"
    description := "หนังสือติดต่อภายนอกหน่วยงาน เช่น เชิญตรวจร่วม ขอรื้อถอน ขอขยายสัญญาณ"
    keywords := ["เรียน", "อ้างถึง", "ขอแสดงความนับถือ", "สิ่งที่ส่งมาด้วย",
      "บริษัท", "ผู้จัดการ", "ผู้อำนวยการ", "เชิญ", "ขอความอนุเคราะห์",
      "ตรวจสอบร่วม", "รื้อถอน", "ขยายสัญญาณ"]
    required_sections := ["เรื่อง", "เรียน", "ขอแสดงความนับถือ"]
    optional_sections := ["อ้างถึง", "สิ่งที่ส่งมาด้วย", "ที่อยู่"]
    content_patterns := none }

/-- The `รายงานการประชุม` (meeting minutes) entry of `_CATEGORY_DATA`. -/
def meetingMinutesInfo : CategoryInfo :=
  { name := "รายงานการประชุม"
    name_en := "Meeting Minutes"
    description := "บันทึกรายงานการประชุมคณะกรรมการหรือคณะทำงาน"
    keywords := ["รายงานการประชุม", "คณะกรรมการ", "ครั้งที่", "ผู้เข้าประชุม",
      "ระเบียบวาระ", "มติที่ประชุม", "ประธาน", "เลขานุการ",
      "เริ่มประชุม", "เลิกประชุม"]
    required_sections := ["รายงานการประชุม", "ผู้เข้าประชุม", "ระเบียบวาระ", "มติที่ประชุม"]
    optional_sections := ["ครั้งที่", "เริ่มประชุมเวลา", "เลิกประชุมเวลา", "ณ"]
    content_patterns := none }

/-- `CATEGORIES` of `categories.py` as an insertion-ordered association list
(Python dicts preserve insertion order, which `classify_category`'s loop over
`CATEGORIES.keys()` relies on). -/
def CATEGORIES : List (String × CategoryInfo) :=
  [("หนังสือภายใน", internalMemoInfo),
   ("หนังสือภายนอก", externalLetterInfo),
   ("รายงานการประชุม", meetingMinutesInfo)]

/-- `CATEGORIES.keys()` in insertion order. -/
def categoryNames : List String :=
  CATEGORIES.map Prod.fst

/-- Python `CATEGORIES.get(k)`: first (only) binding of the key. -/
def lookupCategory (k : String) : Option CategoryInfo :=
  (CATEGORIES.find? (fun p => p.1 == k)).map Prod.snd

/-- `get_category` of `categories.py` (lines 124–126):
`CATEGORIES.get(category_type, CATEGORIES["หนังสือภายใน"])`. -/
def get_category (category_type : String) : CategoryInfo :=
  match lookupCategory category_type with
  | some info => info
  | none => internalMemoInfo

/-- `get_category_keywords` of `categories.py` (lines 129–132). -/
def get_category_keywords (category_type : String) : List String :=
  (match lookupCategory category_type with
   | some info => info
   | none => internalMemoInfo).keywords

/-- `get_required_sections` of `categories.py` (lines 135–138). -/
def get_required_sections (category_type : String) : List String :=
  (match lookupCategory category_type with
   | some info => info
   | none => internalMemoInfo).required_sections

example : lookupCategory "หนังสือภายใน" = some internalMemoInfo := by decide

example : get_required_sections "nonsense" = internalMemoInfo.required_sections := by decide

/-- `LLM_MAX_RETRIES` of `config.py`. -/
def LLM_MAX_RETRIES : Nat := 3

/-- `LLM_RETRY_DELAY` of `config.py` (seconds, exact rational in place of the
Python float). -/
def LLM_RETRY_DELAY : ℚ := 1

/-- The outcome the external completion service gives one attempt of
`deepseek_complete`: a result, an `asyncio.TimeoutError`, or any other
exception carrying its `str(e)` message. -/
inductive LLMOutcome where
  | success (text : String)
  | timeout
  | exn (msg : String)
  deriving Repr, DecidableEq

/-- The exceptions `deepseek_complete` raises: `LLMTimeoutError` and
`LLMRateLimitError` after exhaustion (carrying the attempt count
`retries + 1`), `LLMError` raised immediately for a non-retryable error, and
`LLMError` after exhaustion (attempt count and last message). -/
inductive LLMFailure where
  | timeoutErr (attempts : Nat)
  | rateLimitErr (attempts : Nat)
  | nonRetryableErr (msg : String)
  | exhaustedErr (attempts : Nat) (lastMsg : Option String)
  deriving Repr, DecidableEq

/-- The `last_error` variable of `deepseek_complete`'s loop. -/
inductive LastError where
  | noneYet
  | timeoutE
  | exnE (msg : String)
  deriving Repr, DecidableEq

/-- The in-loop rate-limit signature (`llm.py` line 123):
`"rate" in error_str and "limit" in error_str` on the lowercased message. -/
def isRateLimitMsg (m : String) : Bool :=
  pyIn "rate" (pyLower m) && pyIn "limit" (pyLower m)

/-- The transient-error signatures (`llm.py` line 133). -/
def isTransientMsg (m : String) : Bool :=
  ["connection", "network", "timeout", "502", "503", "504"].any
    (fun x => pyIn x (pyLower m))

/-- The raise after the retry loop exhausts (`llm.py` lines 146–152): a timeout
kind if the last error was a timeout, a rate-limit kind if the last message
contains `"rate"` (note: not the full in-loop signature), else the generic
kind with the last message. -/
def exhaustedRaise (retries : Nat) (last : LastError) : LLMFailure :=
  match last with
  | .timeoutE => .timeoutErr (retries + 1)
  | .exnE m =>
    if pyIn "rate" (pyLower m) then .rateLimitErr (retries + 1)
    else .exhaustedErr (retries + 1) (some m)
  | .noneYet => .exhaustedErr (retries + 1) none

/-- The view of an attempt's outcome as the `last_error` it leaves behind. -/
def asLastError : LLMOutcome → LastError
  | .success _ => .noneYet
  | .timeout => .timeoutE
  | .exn m => .exnE m

/-- The retry loop of `deepseek_complete` (`llm.py` lines 90–152) over the
remaining attempt indices.  `oracle a` is what the external call does on
attempt `a`; the returned list records the back-off sleeps performed, in
order (`LLM_RETRY_DELAY * 2 ** attempt`, doubled again for rate limits). -/
def deepseekAttempts (retries : Nat) (oracle : Nat → LLMOutcome) :
    List Nat → LastError → List ℚ → Except LLMFailure String × List ℚ
  | [], lastE, sleeps => (.error (exhaustedRaise retries lastE), sleeps)
  | a :: rest, _, sleeps =>
    match oracle a with
    | .success t => (.ok t, sleeps)
    | .timeout =>
      let sleeps2 := if a < retries then sleeps ++ [LLM_RETRY_DELAY * 2 ^ a] else sleeps
      deepseekAttempts retries oracle rest .timeoutE sleeps2
    | .exn m =>
      let es := pyLower m
      if pyIn "rate" es && pyIn "limit" es then
        let sleeps2 :=
          if a < retries then sleeps ++ [LLM_RETRY_DELAY * 2 ^ a * 2] else sleeps
        deepseekAttempts retries oracle rest (.exnE m) sleeps2
      else if ["connection", "network", "timeout", "502", "503", "504"].any
          (fun x => pyIn x es) then
        let sleeps2 := if a < retries then sleeps ++ [LLM_RETRY_DELAY * 2 ^ a] else sleeps
        deepseekAttempts retries oracle rest (.exnE m) sleeps2
      else (.error (.nonRetryableErr m), sleeps)

/-- `deepseek_complete` of `llm.py` (lines 54–152): up to `retries + 1`
attempts (`max_retries` defaulting to `LLM_MAX_RETRIES`), with the external
call abstracted as `oracle`. -/
def deepseek_complete (oracle : Nat → LLMOutcome) (max_retries : Option Nat) :
    Except LLMFailure String × List ℚ :=
  let retries := max_retries.getD LLM_MAX_RETRIES
  deepseekAttempts retries oracle (List.range (retries + 1)) .noneYet []

example :
    (deepseek_complete (fun _ => .exn "rate limit exceeded") (some 3)).1 =
      .error (.rateLimitErr 4) := rfl

example :
    (deepseek_complete (fun _ => .exn "network rate high") (some 1)).1 =
      .error (.rateLimitErr 2) := rfl

example :
    (deepseek_complete (fun _ => .timeout) (some 1)).1 =
      .error (.timeoutErr 2) := rfl

example :
    (deepseek_complete (fun _ => .exn "boom") (some 3)).1 =
      .error (.nonRetryableErr "boom") := rfl

/-- The `DocumentState` record of `workflow.py` (lines 26–51); Python floats
(classification confidence) are modelled as `ℚ`. -/
structure DocumentState where
  user_request : String
  category : Option String
  auto_category : Option String
  classification_confidence : ℚ
  rag_context : String
  rag_examples : List String
  entities : List String
  relations : List String
  draft : String
  validation_errors : List String
  retry_count : Nat
  is_valid : Bool
  final_document : String
  deriving Repr

/-- Python truthiness of an optional string field (`state.get('category')`):
`None` and the empty string are falsy. -/
def optTruthy : Option String → Bool
  | none => false
  | some s => !(s == "")

/-- Python `a or d` for an optional string `a`. -/
def pyOrStr : Option String → String → String
  | some s, d => if s == "" then d else s
  | none, d => d

/-- The recurring resolution
`state.get('category') or state.get('auto_category') or "หนังสือภายใน"`
(`workflow.py` lines 99, 203, 308). -/
def resolveCategory (s : DocumentState) : String :=
  pyOrStr s.category (pyOrStr s.auto_category "หนังสือภายใน")

/-- `classify_category` of `workflow.py` (lines 54–93); `resp` is the
completion service's response to the classification prompt.  A pre-selected
category passes through with confidence `1`; otherwise the first category
name contained in the stripped response is chosen with confidence `4/5`,
defaulting to the internal memo with confidence `1/2`. -/
def classify_category (resp : String) (s : DocumentState) : DocumentState :=
  if optTruthy s.category then
    { s with auto_category := s.category, classification_confidence := 1 }
  else
    let response := pyStrip resp
    match categoryNames.find? (fun name => pyIn name response) with
    | some category =>
      { s with category := some category, auto_category := some category,
               classification_confidence := 4 / 5 }
    | none =>
      { s with category := some "หนังสือภายใน", auto_category := some "หนังสือภายใน",
               classification_confidence := 1 / 2 }

/-- What the retrieval collaborator returns for the context query: `query`
may give a string or a dict (`workflow.py` lines 127–132 branch on both). -/
inductive RagResult where
  | str (s : String)
  | dict (entries : List (String × String))
  deriving Repr, DecidableEq

/-- Python `str(rag_context)` as stored into the state. -/
def pyStrOfRag : RagResult → String
  | .str s => s
  | .dict es =>
    "\x7b" ++ String.intercalate ", " (es.map (fun p => pyRepr p.1 ++ ": " ++ pyRepr p.2))
      ++ "\x7d"

/-- The example extraction of `retrieve_context` (`workflow.py` lines
126–132), before the fallback step. -/
def ragExamplesOf : RagResult → List String
  | .dict es =>
    match es.lookup "context" with
    | some context_str => if context_str == "" then [] else [context_str]
    | none => []
  | .str s => if s == "" then [] else [s]

/-- The search-query construction of `retrieve_context` (`workflow.py` lines
104–117). -/
def buildSearchQuery (user_request : String) : String :=
  let action_keywords :=
    (if pyIn "ขออนุมัติ" user_request then ["ขออนุมัติ"] else []) ++
    (if pyIn "เดินทาง" user_request then ["เดินทาง ปฏิบัติงาน"] else []) ++
    (if pyIn "ตรวจสอบ" user_request then ["ตรวจสอบ คลื่นความถี่"] else []) ++
    (if pyIn "รายงาน" user_request then ["รายงานผล"] else [])
  let action_str := String.intercalate " " action_keywords
  "บันทึกข้อความ " ++ action_str ++ " " ++ pySlice user_request 100

/-- `retrieve_context` of `workflow.py` (lines 96–150).  The retrieval
collaborator is abstracted as oracles over the search query
(`get_entities_and_relations` and `query`), and the absent
`templates.get_random_example_for_category` as `fallbackFor` (returning
`none` when the category has no example).  The fallback is appended when the
example bag is empty or `len(str(rag_examples)) < 200` and the fallback is
truthy. -/
def retrieve_context (getEnt : String → List String × List String)
    (ragQuery : String → RagResult) (fallbackFor : String → Option String)
    (s : DocumentState) : DocumentState :=
  let category := resolveCategory s
  let search_query := buildSearchQuery s.user_request
  let er := getEnt search_query
  let rag_context := ragQuery search_query
  let rag_examples := ragExamplesOf rag_context
  let rag_examples2 :=
    if rag_examples.isEmpty || decide ((pyStrOfList rag_examples).length < 200) then
      match fallbackFor category with
      | some fallback_example =>
        if fallback_example == "" then rag_examples
        else rag_examples ++ [fallback_example]
      | none => rag_examples
    else rag_examples
  { s with rag_context := pyStrOfRag rag_context, rag_examples := rag_examples2,
           entities := er.1, relations := er.2 }

/-- `generate_draft` of `workflow.py` (lines 200–299).  The prompt it
assembles (template, placeholder list, extracted user data, one truncated
example) only feeds the external completion service; the state change is
`{**state, "draft": draft}` with `draft` the service's response, modelled as
an oracle indexed by the retry counter — the only state field that differs
between the Generate invocations of one run. -/
def generate_draft (drafts : Nat → String) (s : DocumentState) : DocumentState :=
  { s with draft := drafts s.retry_count }

/-- `re.findall(r'\[([A-Z_]+)\]', draft)`: scan left to right, capture the
bracketed uppercase/underscore runs, continue after each match (fuel is the
scanned list's length, which bounds the number of steps). -/
def findPlaceholdersAux : Nat → List Char → List String
  | 0, _ => []
  | _ + 1, [] => []
  | fuel + 1, c :: rest =>
    if c == '[' then
      let run := rest.takeWhile isPlaceholderChar
      match rest.drop run.length with
      | ']' :: rest2 =>
        if run.isEmpty then findPlaceholdersAux fuel rest
        else String.mk run :: findPlaceholdersAux fuel rest2
      | _ => findPlaceholdersAux fuel rest
    else findPlaceholdersAux fuel rest

/-- All unreplaced placeholders of a draft. -/
def findPlaceholders (draft : String) : List String :=
  findPlaceholdersAux draft.toList.length draft.toList

/-- The error list `validate_document` accumulates (`workflow.py` lines
302–345), in source order: unreplaced placeholders, missing required
sections, the internal-memo content pattern, the document-number fidelity
check (whitespace-insensitive), the location fidelity check, and the
200-character minimum length. -/
def validationErrors (user_request category draft : String) : List String :=
  let unreplaced := findPlaceholders draft
  let e1 :=
    if unreplaced.isEmpty then []
    else ["Unreplaced placeholders: " ++ String.intercalate ", " (unreplaced.take 5)]
  let e2 := (get_required_sections category).filterMap (fun sec =>
    if pyIn sec draft then none else some ("Missing required section: " ++ sec))
  let e3 :=
    if category == "หนังสือภายใน" && !(pyIn "เรื่องเพื่อพิจารณา" draft)
        && !(pyIn "ข้อเท็จจริง" draft) then
      ["Missing content section: ต้องมี 'เรื่องเพื่อพิจารณา' หรือ 'ข้อเท็จจริง'"]
    else []
  let user_data := extract_user_data user_request
  let e4 :=
    match user_data.doc_number with
    | some n =>
      if pyIn (removeSpaces n) (removeSpaces draft) then []
      else ["User doc number not used: " ++ n]
    | none => []
  let e5 :=
    match user_data.location with
    | some loc => if pyIn loc draft then [] else ["User location not used: " ++ loc]
    | none => []
  let e6 := if draft.length < 200 then ["Document too short"] else []
  e1 ++ e2 ++ e3 ++ e4 ++ e5 ++ e6

/-- `validate_document` of `workflow.py` (lines 302–364): on any error, store
the errors, bump the retry counter and clear the validity flag (the source's
`if errors:` branch); on none, clear the errors, set the flag and copy the
draft into `final_document`. -/
def validate_document (s : DocumentState) : DocumentState :=
  let errors := validationErrors s.user_request (resolveCategory s) s.draft
  if errors = [] then
    { s with validation_errors := [], is_valid := true, final_document := s.draft }
  else
    { s with validation_errors := errors, retry_count := s.retry_count + 1,
             is_valid := false }

/-- `should_retry` of `workflow.py` (lines 367–379). -/
def should_retry (s : DocumentState) : String :=
  if s.is_valid then "end"
  else if s.retry_count < 3 then "generate"
  else "end"

/-- The generate → validate → (conditional edge) cycle that `build_workflow`
wires (`workflow.py` lines 382–411), with a step budget; the second
component counts the Generate invocations.  `stepLoop drafts fuel` is
independent of `fuel` once `fuel ≥ 3` (proved below), which is the
termination of the compiled graph. -/
def stepLoop (drafts : Nat → String) : Nat → DocumentState → DocumentState × Nat
  | 0, s => (s, 0)
  | fuel + 1, s =>
    let s1 := validate_document (generate_draft drafts s)
    if should_retry s1 = "generate" then
      let r := stepLoop drafts fuel s1
      (r.1, r.2 + 1)
    else (s1, 1)

/-- The initial state `generate_document` builds (`workflow.py` lines
432–446). -/
def initialState (user_request : String) (category : Option String) : DocumentState :=
  { user_request := user_request
    category := category
    auto_category := none
    classification_confidence := 0
    rag_context := ""
    rag_examples := []
    entities := []
    relations := []
    draft := ""
    validation_errors := []
    retry_count := 0
    is_valid := false
    final_document := "" }

/-- One invocation of the compiled graph `app.ainvoke(initial_state)`:
classify → retrieve → generate/validate loop. -/
def runWorkflow (resp : String) (getEnt : String → List String × List String)
    (ragQuery : String → RagResult) (fallbackFor : String → Option String)
    (drafts : Nat → String) (fuel : Nat) (user_request : String)
    (category : Option String) : DocumentState × Nat :=
  stepLoop drafts fuel
    (retrieve_context getEnt ragQuery fallbackFor
      (classify_category resp (initialState user_request category)))

/-- The return expression of `generate_document` (`workflow.py` line 450):
`result.get('final_document') or result.get('draft', '')`. -/
def returnedDocOf (s : DocumentState) : String :=
  if s.final_document == "" then s.draft else s.final_document

/-- `generate_document` of `workflow.py` (lines 418–450); the budget `3`
covers every possible run of the loop. -/
def generate_document (resp : String) (getEnt : String → List String × List String)
    (ragQuery : String → RagResult) (fallbackFor : String → Option String)
    (drafts : Nat → String) (user_request : String) (category : Option String) :
    String :=
  returnedDocOf (runWorkflow resp getEnt ragQuery fallbackFor drafts 3
    user_request category).1

example :
    generate_document "" (fun _ => ([], [])) (fun _ => .str "") (fun _ => none)
      (fun _ => "x") "คำขอ" (some "หนังสือภายนอก") = "x" := rfl

example :
    (runWorkflow "" (fun _ => ([], [])) (fun _ => .str "") (fun _ => none)
      (fun _ => "x") 3 "คำขอ" (some "หนังสือภายนอก")).2 = 3 := rfl

example :
    (runWorkflow "" (fun _ => ([], [])) (fun _ => .str "") (fun _ => none)
      (fun _ => "x") 9 "คำขอ" (some "หนังสือภายนอก")).1.retry_count = 3 := rfl

/-- A draft the validator accepts for a request and category: the error list
is empty. -/
def acceptedDraft (user_request category draft : String) : Prop :=
  validationErrors user_request category draft = []

instance acceptedDraftDecidable (user_request category draft : String) :
    Decidable (acceptedDraft user_request category draft) :=
  inferInstanceAs (Decidable (validationErrors user_request category draft = []))

/-- The category a run of the pipeline validates against: what `classify`
resolves from the caller's selection (or the completion response) — the
later stages never change it. -/
def pipelineCategory (resp user_request : String) (category : Option String) : String :=
  resolveCategory (classify_category resp (initialState user_request category))

/-- The state entering the generate/validate loop: classify then retrieve over
the initial state. -/
def entryState (resp : String) (getEnt : String → List String × List String)
    (ragQuery : String → RagResult) (fallbackFor : String → Option String)
    (user_request : String) (category : Option String) : DocumentState :=
  retrieve_context getEnt ragQuery fallbackFor
    (classify_category resp (initialState user_request category))

/-- A draft that satisfies every validator rule for the external-letter
category and the request `"ขอ สทช 123"`. -/
def passingDraft : String :=
  "เรื่อง เรียน ขอแสดงความนับถือ สทช 123 " ++ String.mk (List.replicate 200 'ก')

example : validationErrors "ขอ สทช 123" "หนังสือภายนอก" passingDraft = [] := by decide

/-- The category names a completion response contains, in table order. -/
def containedCategoryNames (response : String) : List String :=
  categoryNames.filter (fun name => pyIn name response)

/-- Whether `y` occurs in `req` as a whole digit token: some occurrence has no
digit immediately before it and no digit immediately after it (the boundary
the claim asserts, which the pattern `(25\d{2}|256\d)` does not anchor). -/
def occursAsWholeDigitToken (req y : String) : Bool :=
  let rec go (needle : List Char) : Option Char → List Char → Bool
    | prev, cs =>
      ((match prev with
        | none => true
        | some c => !(isPyDigit c))
        && listStartsWith needle cs
        && (match cs.drop needle.length with
            | [] => true
            | c :: _ => !(isPyDigit c)))
      || (match cs with
          | [] => false
          | c :: t => go needle (some c) t)
  go y.toList none req.toList

/-- An attempt outcome the retry loop treats as retryable: a timeout, or an
exception matching the rate-limit or transient signatures. -/
def retryableFail (o : LLMOutcome) : Prop :=
  o = .timeout ∨ ∃ m, o = .exn m ∧ (isRateLimitMsg m = true ∨ isTransientMsg m = true)

theorem classify_frame (resp : String) (s : DocumentState) :
    (classify_category resp s).user_request = s.user_request
    ∧ (classify_category resp s).retry_count = s.retry_count
    ∧ (classify_category resp s).is_valid = s.is_valid
    ∧ (classify_category resp s).final_document = s.final_document
    ∧ (classify_category resp s).draft = s.draft := by
  unfold classify_category
  split
  · simp
  · dsimp only
    cases (categoryNames.find? fun name => pyIn name (pyStrip resp)) <;> simp

theorem retrieve_frame (getEnt : String → List String × List String)
    (ragQuery : String → RagResult) (fallbackFor : String → Option String)
    (s : DocumentState) :
    (retrieve_context getEnt ragQuery fallbackFor s).user_request = s.user_request
    ∧ (retrieve_context getEnt ragQuery fallbackFor s).retry_count = s.retry_count
    ∧ (retrieve_context getEnt ragQuery fallbackFor s).is_valid = s.is_valid
    ∧ (retrieve_context getEnt ragQuery fallbackFor s).final_document = s.final_document
    ∧ (retrieve_context getEnt ragQuery fallbackFor s).draft = s.draft
    ∧ (retrieve_context getEnt ragQuery fallbackFor s).category = s.category
    ∧ (retrieve_context getEnt ragQuery fallbackFor s).auto_category = s.auto_category := by
  unfold retrieve_context
  simp

theorem stepLoop_char (drafts : Nat → String) (s : DocumentState)
    (hrc : s.retry_count = 0) (a : Nat) :
    stepLoop drafts (a + 3) s =
      if validationErrors s.user_request (resolveCategory s) (drafts 0) = [] then
        ({ s with draft := drafts 0, validation_errors := [], is_valid := true,
                  final_document := drafts 0 }, 1)
      else if validationErrors s.user_request (resolveCategory s) (drafts 1) = [] then
        ({ s with draft := drafts 1, validation_errors := [], retry_count := 1,
                  is_valid := true, final_document := drafts 1 }, 2)
      else if validationErrors s.user_request (resolveCategory s) (drafts 2) = [] then
        ({ s with draft := drafts 2, validation_errors := [], retry_count := 2,
                  is_valid := true, final_document := drafts 2 }, 3)
      else
        ({ s with draft := drafts 2,
                  validation_errors :=
                    validationErrors s.user_request (resolveCategory s) (drafts 2),
                  retry_count := 3, is_valid := false }, 3) := by
  by_cases h0 : validationErrors s.user_request (resolveCategory s) (drafts 0) = []
  · rw [if_pos h0]
    show stepLoop drafts (a + 2 + 1) s = _
    simp only [stepLoop, generate_draft, validate_document, resolveCategory,
      should_retry, hrc] at h0 ⊢
    simp [h0]
  · rw [if_neg h0]
    by_cases h1 : validationErrors s.user_request (resolveCategory s) (drafts 1) = []
    · rw [if_pos h1]
      show stepLoop drafts (a + 1 + 1 + 1) s = _
      simp only [stepLoop, generate_draft, validate_document, resolveCategory,
        should_retry, hrc] at h0 h1 ⊢
      simp [h0, h1]
    · rw [if_neg h1]
      by_cases h2 : validationErrors s.user_request (resolveCategory s) (drafts 2) = []
      · rw [if_pos h2]
        show stepLoop drafts (a + 1 + 1 + 1) s = _
        simp only [stepLoop, generate_draft, validate_document, resolveCategory,
          should_retry, hrc] at h0 h1 h2 ⊢
        simp [h0, h1, h2]
      · rw [if_neg h2]
        show stepLoop drafts (a + 1 + 1 + 1) s = _
        simp only [stepLoop, generate_draft, validate_document, resolveCategory,
          should_retry, hrc] at h0 h1 h2 ⊢
        simp [h0, h1, h2]

theorem entry_facts (resp : String) (getEnt : String → List String × List String)
    (ragQuery : String → RagResult) (fallbackFor : String → Option String)
    (user_request : String) (category : Option String) :
    (entryState resp getEnt ragQuery fallbackFor user_request category).retry_count = 0
    ∧ (entryState resp getEnt ragQuery fallbackFor user_request category).user_request
        = user_request
    ∧ (entryState resp getEnt ragQuery fallbackFor user_request category).final_document
        = ""
    ∧ resolveCategory (entryState resp getEnt ragQuery fallbackFor user_request category)
        = pipelineCategory resp user_request category := by
  have hc := classify_frame resp (initialState user_request category)
  have hr := retrieve_frame getEnt ragQuery fallbackFor
    (classify_category resp (initialState user_request category))
  refine ⟨?_, ?_, ?_, ?_⟩
  · rw [entryState, hr.2.1, hc.2.1]; rfl
  · rw [entryState, hr.1, hc.1]; rfl
  · rw [entryState, hr.2.2.2.1, hc.2.2.2.1]; rfl
  · rw [entryState, pipelineCategory, resolveCategory, resolveCategory,
      hr.2.2.2.2.2.1, hr.2.2.2.2.2.2]

theorem runWorkflow_char (resp : String) (getEnt : String → List String × List String)
    (ragQuery : String → RagResult) (fallbackFor : String → Option String)
    (drafts : Nat → String) (user_request : String) (category : Option String)
    (a : Nat) :
    runWorkflow resp getEnt ragQuery fallbackFor drafts (a + 3) user_request category =
      (if validationErrors user_request (pipelineCategory resp user_request category)
          (drafts 0) = [] then
        ({ entryState resp getEnt ragQuery fallbackFor user_request category with
             user_request := user_request, retry_count := 0,
             draft := drafts 0, validation_errors := [], is_valid := true,
             final_document := drafts 0 }, 1)
      else if validationErrors user_request (pipelineCategory resp user_request category)
          (drafts 1) = [] then
        ({ entryState resp getEnt ragQuery fallbackFor user_request category with
             user_request := user_request,
             draft := drafts 1, validation_errors := [], retry_count := 1,
             is_valid := true, final_document := drafts 1 }, 2)
      else if validationErrors user_request (pipelineCategory resp user_request category)
          (drafts 2) = [] then
        ({ entryState resp getEnt ragQuery fallbackFor user_request category with
             user_request := user_request,
             draft := drafts 2, validation_errors := [], retry_count := 2,
             is_valid := true, final_document := drafts 2 }, 3)
      else
        ({ entryState resp getEnt ragQuery fallbackFor user_request category with
             user_request := user_request,
             draft := drafts 2,
             validation_errors :=
               validationErrors user_request (pipelineCategory resp user_request category)
                 (drafts 2),
             retry_count := 3, is_valid := false, final_document := "" }, 3)) := by
  have hf := entry_facts resp getEnt ragQuery fallbackFor user_request category
  have h := stepLoop_char drafts
    (entryState resp getEnt ragQuery fallbackFor user_request category) hf.1 a
  rw [hf.2.1, hf.2.2.2, hf.1, hf.2.2.1] at h
  exact h

theorem validationErrors_nil_facts (u c d : String)
    (h : validationErrors u c d = []) :
    ¬ d.length < 200
    ∧ (∀ n, (extract_user_data u).doc_number = some n →
        pyIn (removeSpaces n) (removeSpaces d) = true) := by
  simp only [validationErrors, List.append_eq_nil] at h
  obtain ⟨⟨⟨⟨⟨-, -⟩, -⟩, h4⟩, -⟩, h6⟩ := h
  constructor
  · intro hlt
    rw [if_pos hlt] at h6
    exact absurd h6 (by simp)
  · intro n hn
    rw [hn] at h4
    dsimp only at h4
    cases hb : pyIn (removeSpaces n) (removeSpaces d) with
    | true => rfl
    | false => rw [hb] at h4; simp at h4

/-- C1: for every request, pre-selected category and behaviour of the external
collaborators, one call of the workflow terminates — the result of the
generate/validate loop is the same for every step budget of at least 3, the
final state satisfies `should_retry = "end"` — and the Generate stage runs at
most `1 + 3 = 4` times (the code in fact runs it at most 3 times, since
`validate_document` increments `retry_count` before `should_retry` compares it
with 3). -/
theorem C1_workflow_terminates_generate_bound (resp : String)
    (getEnt : String → List String × List String) (ragQuery : String → RagResult)
    (fallbackFor : String → Option String) (drafts : Nat → String)
    (user_request : String) (category : Option String) (fuel : Nat)
    (hfuel : 3 ≤ fuel) :
    (runWorkflow resp getEnt ragQuery fallbackFor drafts fuel user_request category).2 ≤ 4
    ∧ should_retry
        (runWorkflow resp getEnt ragQuery fallbackFor drafts fuel user_request
          category).1 = "end"
    ∧ runWorkflow resp getEnt ragQuery fallbackFor drafts fuel user_request category
        = runWorkflow resp getEnt ragQuery fallbackFor drafts 3 user_request category := by
  obtain ⟨a, ha⟩ := Nat.le.dest hfuel
  subst ha
  rw [Nat.add_comm 3 a]
  have h := runWorkflow_char resp getEnt ragQuery fallbackFor drafts user_request
    category a
  have h0 := runWorkflow_char resp getEnt ragQuery fallbackFor drafts user_request
    category 0
  rw [Nat.zero_add] at h0
  refine ⟨?_, ?_, ?_⟩
  · rw [h]; split_ifs <;> simp
  · rw [h]; split_ifs <;> simp [should_retry]
  · rw [h, h0]

/-- C2: the text `generate_document` returns is either the first draft
`validate_document` accepted (empty error list, validity flag set) or, when no
draft passed before the retry bound was exhausted, the draft of the final
Generate attempt. -/
theorem C2_returned_first_accepted_or_final (resp : String)
    (getEnt : String → List String × List String) (ragQuery : String → RagResult)
    (fallbackFor : String → Option String) (drafts : Nat → String)
    (user_request : String) (category : Option String) (fuel : Nat)
    (hfuel : 3 ≤ fuel) :
    (∃ i, i ≤ 2
      ∧ acceptedDraft user_request (pipelineCategory resp user_request category)
          (drafts i)
      ∧ (∀ j, j < i →
          ¬ acceptedDraft user_request (pipelineCategory resp user_request category)
            (drafts j))
      ∧ returnedDocOf (runWorkflow resp getEnt ragQuery fallbackFor drafts fuel
          user_request category).1 = drafts i
      ∧ (runWorkflow resp getEnt ragQuery fallbackFor drafts fuel user_request
          category).1.is_valid = true)
    ∨ ((∀ i, i ≤ 2 →
          ¬ acceptedDraft user_request (pipelineCategory resp user_request category)
            (drafts i))
      ∧ returnedDocOf (runWorkflow resp getEnt ragQuery fallbackFor drafts fuel
          user_request category).1 = drafts 2
      ∧ (runWorkflow resp getEnt ragQuery fallbackFor drafts fuel user_request
          category).1.is_valid = false) := by
  obtain ⟨a, ha⟩ := Nat.le.dest hfuel
  subst ha
  rw [Nat.add_comm 3 a]
  have h := runWorkflow_char resp getEnt ragQuery fallbackFor drafts user_request
    category a
  by_cases h0 : validationErrors user_request
      (pipelineCategory resp user_request category) (drafts 0) = []
  · left
    refine ⟨0, by norm_num, h0, ?_, ?_, ?_⟩
    · intro j hj; exact absurd hj (Nat.not_lt_zero j)
    · rw [h, if_pos h0]; simp [returnedDocOf]
    · rw [h, if_pos h0]
  · by_cases h1 : validationErrors user_request
        (pipelineCategory resp user_request category) (drafts 1) = []
    · left
      refine ⟨1, by norm_num, h1, ?_, ?_, ?_⟩
      · intro j hj
        have : j = 0 := by omega
        subst this
        exact h0
      · rw [h, if_neg h0, if_pos h1]; simp [returnedDocOf]
      · rw [h, if_neg h0, if_pos h1]
    · by_cases h2 : validationErrors user_request
          (pipelineCategory resp user_request category) (drafts 2) = []
      · left
        refine ⟨2, by norm_num, h2, ?_, ?_, ?_⟩
        · intro j hj
          have : j = 0 ∨ j = 1 := by omega
          rcases this with rfl | rfl
          · exact h0
          · exact h1
        · rw [h, if_neg h0, if_neg h1, if_pos h2]; simp [returnedDocOf]
        · rw [h, if_neg h0, if_neg h1, if_pos h2]
      · right
        refine ⟨?_, ?_, ?_⟩
        · intro i hi
          have : i = 0 ∨ i = 1 ∨ i = 2 := by omega
          rcases this with rfl | rfl | rfl
          · exact h0
          · exact h1
          · exact h2
        · rw [h, if_neg h0, if_neg h1, if_neg h2]; simp [returnedDocOf]
        · rw [h, if_neg h0, if_neg h1, if_neg h2]

theorem C2_returned_first_accepted_or_final_witness :
    (∃ i, i ≤ 2
      ∧ acceptedDraft "คำขอ" (pipelineCategory "" "คำขอ" (some "หนังสือภายนอก"))
          ((fun _ => "x") i)
      ∧ (∀ j, j < i →
          ¬ acceptedDraft "คำขอ" (pipelineCategory "" "คำขอ" (some "หนังสือภายนอก"))
            ((fun _ => "x") j))
      ∧ returnedDocOf (runWorkflow "" (fun _ => ([], [])) (fun _ => .str "")
          (fun _ => none) (fun _ => "x") 4 "คำขอ" (some "หนังสือภายนอก")).1
          = (fun _ => "x") i
      ∧ (runWorkflow "" (fun _ => ([], [])) (fun _ => .str "") (fun _ => none)
          (fun _ => "x") 4 "คำขอ" (some "หนังสือภายนอก")).1.is_valid = true)
    ∨ ((∀ i, i ≤ 2 →
          ¬ acceptedDraft "คำขอ" (pipelineCategory "" "คำขอ" (some "หนังสือภายนอก"))
            ((fun _ => "x") i))
      ∧ returnedDocOf (runWorkflow "" (fun _ => ([], [])) (fun _ => .str "")
          (fun _ => none) (fun _ => "x") 4 "คำขอ" (some "หนังสือภายนอก")).1
          = (fun _ => "x") 2
      ∧ (runWorkflow "" (fun _ => ([], [])) (fun _ => .str "") (fun _ => none)
          (fun _ => "x") 4 "คำขอ" (some "หนังสือภายนอก")).1.is_valid = false) :=
  C2_returned_first_accepted_or_final "" (fun _ => ([], [])) (fun _ => .str "")
    (fun _ => none) (fun _ => "x") "คำขอ" (some "หนังสือภายนอก") 4 (by decide)

/-- C3: when the request yields a document number and the run ends with a
passing validation, the returned document contains that number after spaces
are removed from both sides of the comparison. -/
theorem C3_passing_run_contains_doc_number (resp : String)
    (getEnt : String → List String × List String) (ragQuery : String → RagResult)
    (fallbackFor : String → Option String) (drafts : Nat → String)
    (user_request : String) (category : Option String) (fuel : Nat)
    (hfuel : 3 ≤ fuel) (n : String)
    (hn : (extract_user_data user_request).doc_number = some n)
    (hv : (runWorkflow resp getEnt ragQuery fallbackFor drafts fuel user_request
        category).1.is_valid = true) :
    pyIn (removeSpaces n)
      (removeSpaces (returnedDocOf (runWorkflow resp getEnt ragQuery fallbackFor
        drafts fuel user_request category).1)) = true := by
  obtain ⟨a, ha⟩ := Nat.le.dest hfuel
  subst ha
  rw [Nat.add_comm 3 a] at hv ⊢
  have h := runWorkflow_char resp getEnt ragQuery fallbackFor drafts user_request
    category a
  rw [h] at hv ⊢
  split_ifs at hv ⊢ with h0 h1 h2
  · simp only [returnedDocOf, ite_self]
    exact (validationErrors_nil_facts _ _ _ h0).2 n hn
  · simp only [returnedDocOf, ite_self]
    exact (validationErrors_nil_facts _ _ _ h1).2 n hn
  · simp only [returnedDocOf, ite_self]
    exact (validationErrors_nil_facts _ _ _ h2).2 n hn

theorem C3_passing_run_contains_doc_number_witness :
    pyIn (removeSpaces "สทช 123")
      (removeSpaces (returnedDocOf (runWorkflow "" (fun _ => ([], []))
        (fun _ => .str "") (fun _ => none) (fun _ => passingDraft) 3 "ขอ สทช 123"
        (some "หนังสือภายนอก")).1)) = true :=
  C3_passing_run_contains_doc_number "" (fun _ => ([], [])) (fun _ => .str "")
    (fun _ => none) (fun _ => passingDraft) "ขอ สทช 123" (some "หนังสือภายนอก") 3
    (by decide) "สทช 123" (by decide) (by decide)

theorem C1_workflow_terminates_generate_bound_witness :
    (runWorkflow "" (fun _ => ([], [])) (fun _ => .str "") (fun _ => none)
        (fun _ => "x") 5 "คำขอ" (some "หนังสือภายนอก")).2 ≤ 4
    ∧ should_retry (runWorkflow "" (fun _ => ([], [])) (fun _ => .str "")
        (fun _ => none) (fun _ => "x") 5 "คำขอ" (some "หนังสือภายนอก")).1 = "end"
    ∧ runWorkflow "" (fun _ => ([], [])) (fun _ => .str "") (fun _ => none)
        (fun _ => "x") 5 "คำขอ" (some "หนังสือภายนอก")
      = runWorkflow "" (fun _ => ([], [])) (fun _ => .str "") (fun _ => none)
        (fun _ => "x") 3 "คำขอ" (some "หนังสือภายนอก") :=
  C1_workflow_terminates_generate_bound "" (fun _ => ([], [])) (fun _ => .str "")
    (fun _ => none) (fun _ => "x") "คำขอ" (some "หนังสือภายนอก") 5 (by decide)

/-- C9: a failing validation only updates `validation_errors`, `retry_count`
and `is_valid` — every other field, `final_document` included, is returned
unchanged; consequently a run whose every draft fails validation ends with
`final_document` still holding its initial empty value, and the caller
receives the raw draft of the final Generate attempt. -/
theorem C9_failed_validation_frame :
    (∀ s : DocumentState,
      validationErrors s.user_request (resolveCategory s) s.draft ≠ [] →
        (validate_document s).final_document = s.final_document
        ∧ (validate_document s).draft = s.draft
        ∧ (validate_document s).user_request = s.user_request
        ∧ (validate_document s).category = s.category
        ∧ (validate_document s).auto_category = s.auto_category
        ∧ (validate_document s).classification_confidence = s.classification_confidence
        ∧ (validate_document s).rag_context = s.rag_context
        ∧ (validate_document s).rag_examples = s.rag_examples
        ∧ (validate_document s).entities = s.entities
        ∧ (validate_document s).relations = s.relations
        ∧ (validate_document s).validation_errors
            = validationErrors s.user_request (resolveCategory s) s.draft
        ∧ (validate_document s).retry_count = s.retry_count + 1
        ∧ (validate_document s).is_valid = false)
    ∧ (∀ (resp : String) (getEnt : String → List String × List String)
        (ragQuery : String → RagResult) (fallbackFor : String → Option String)
        (drafts : Nat → String) (user_request : String) (category : Option String)
        (fuel : Nat), 3 ≤ fuel →
        (∀ i, i ≤ 2 →
          ¬ acceptedDraft user_request (pipelineCategory resp user_request category)
            (drafts i)) →
        (runWorkflow resp getEnt ragQuery fallbackFor drafts fuel user_request
            category).1.final_document = ""
        ∧ returnedDocOf (runWorkflow resp getEnt ragQuery fallbackFor drafts fuel
            user_request category).1 = drafts 2) := by
  constructor
  · intro s hne
    unfold validate_document
    dsimp only
    rw [if_neg hne]
    simp
  · intro resp getEnt ragQuery fallbackFor drafts user_request category fuel hfuel
      hfail
    obtain ⟨a, ha⟩ := Nat.le.dest hfuel
    subst ha
    rw [Nat.add_comm 3 a]
    have h := runWorkflow_char resp getEnt ragQuery fallbackFor drafts user_request
      category a
    have h0 : validationErrors user_request
        (pipelineCategory resp user_request category) (drafts 0) ≠ [] :=
      hfail 0 (by norm_num)
    have h1 : validationErrors user_request
        (pipelineCategory resp user_request category) (drafts 1) ≠ [] :=
      hfail 1 (by norm_num)
    have h2 : validationErrors user_request
        (pipelineCategory resp user_request category) (drafts 2) ≠ [] :=
      hfail 2 (by norm_num)
    rw [h, if_neg h0, if_neg h1, if_neg h2]
    exact ⟨rfl, by simp [returnedDocOf]⟩

theorem C9_failed_validation_frame_witness :
    ((validate_document (initialState "คำขอ" none)).final_document
        = (initialState "คำขอ" none).final_document
      ∧ (validate_document (initialState "คำขอ" none)).retry_count
        = (initialState "คำขอ" none).retry_count + 1)
    ∧ ((runWorkflow "" (fun _ => ([], [])) (fun _ => .str "") (fun _ => none)
          (fun _ => "x") 3 "คำขอ" none).1.final_document = ""
      ∧ returnedDocOf (runWorkflow "" (fun _ => ([], [])) (fun _ => .str "")
          (fun _ => none) (fun _ => "x") 3 "คำขอ" none).1 = (fun _ => "x") 2) := by
  have h1 := C9_failed_validation_frame.1 (initialState "คำขอ" none) (by decide)
  have h2 := C9_failed_validation_frame.2 "" (fun _ => ([], [])) (fun _ => .str "")
    (fun _ => none) (fun _ => "x") "คำขอ" none 3 (by decide)
    (fun i hi => by interval_cases i <;> decide)
  exact ⟨⟨h1.1, h1.2.2.2.2.2.2.2.2.2.2.2.1⟩, h2⟩

/-- C10: the category-table lookups are total on arbitrary string keys — for
any key they either return the stored entry (and the three getters agree with
it) or fall back to the internal-memo entry; being plain Lean functions they
can raise no exception. -/
theorem C10_category_lookups_total (k : String) :
    (lookupCategory k = none
      ∧ get_category k = internalMemoInfo
      ∧ get_category_keywords k = internalMemoInfo.keywords
      ∧ get_required_sections k = internalMemoInfo.required_sections)
    ∨ (∃ info, lookupCategory k = some info
      ∧ get_category k = info
      ∧ get_category_keywords k = info.keywords
      ∧ get_required_sections k = info.required_sections) := by
  cases h : lookupCategory k with
  | none =>
    left
    exact ⟨rfl, by simp [get_category, h], by simp [get_category_keywords, h],
      by simp [get_required_sections, h]⟩
  | some info =>
    right
    exact ⟨info, rfl, by simp [get_category, h], by simp [get_category_keywords, h],
      by simp [get_required_sections, h]⟩

theorem find_of_filter_singleton {α : Type} (p : α → Bool) (c : α) :
    ∀ l : List α, l.filter p = [c] → l.find? p = some c := by
  intro l
  induction l with
  | nil => intro h; exact absurd h (by simp)
  | cons a t ih =>
    intro h
    by_cases ha : p a = true
    · rw [List.filter_cons_of_pos ha] at h
      obtain ⟨rfl, -⟩ := List.cons_eq_cons.mp h
      simp [List.find?, ha]
    · rw [List.filter_cons_of_neg (by simpa using ha)] at h
      have := ih h
      simp [List.find?, ha, this]

/-- C6: with no pre-selected category, classification is a deterministic
function of the completion response — a response containing exactly one known
category name yields that category with confidence `0.8`, and a response
containing none yields the internal memo with confidence `0.5`. -/
theorem C6_classification_deterministic (resp : String) (s : DocumentState)
    (hs : optTruthy s.category = false) :
    (∀ c, containedCategoryNames (pyStrip resp) = [c] →
      (classify_category resp s).category = some c
      ∧ (classify_category resp s).auto_category = some c
      ∧ (classify_category resp s).classification_confidence = 4 / 5)
    ∧ (containedCategoryNames (pyStrip resp) = [] →
      (classify_category resp s).category = some "หนังสือภายใน"
      ∧ (classify_category resp s).auto_category = some "หนังสือภายใน"
      ∧ (classify_category resp s).classification_confidence = 1 / 2) := by
  constructor
  · intro c hc
    have hfind : categoryNames.find? (fun name => pyIn name (pyStrip resp)) = some c :=
      find_of_filter_singleton _ c categoryNames hc
    unfold classify_category
    rw [if_neg (by simp [hs])]
    dsimp only
    rw [hfind]
    exact ⟨rfl, rfl, rfl⟩
  · intro hc
    have hfind : categoryNames.find? (fun name => pyIn name (pyStrip resp)) = none := by
      rw [List.find?_eq_none]
      intro x hx
      intro hpx
      have : x ∈ containedCategoryNames (pyStrip resp) := by
        unfold containedCategoryNames
        rw [List.mem_filter]
        exact ⟨hx, hpx⟩
      rw [hc] at this
      exact absurd this (List.not_mem_nil x)
    unfold classify_category
    rw [if_neg (by simp [hs])]
    dsimp only
    rw [hfind]
    exact ⟨rfl, rfl, rfl⟩

theorem C6_classification_deterministic_witness :
    ((classify_category "หนังสือภายนอก" (initialState "คำขอ" none)).category
        = some "หนังสือภายนอก"
      ∧ (classify_category "หนังสือภายนอก" (initialState "คำขอ" none)).auto_category
        = some "หนังสือภายนอก"
      ∧ (classify_category "หนังสือภายนอก"
          (initialState "คำขอ" none)).classification_confidence = 4 / 5)
    ∧ ((classify_category "ไม่ทราบ" (initialState "คำขอ" none)).category
        = some "หนังสือภายใน"
      ∧ (classify_category "ไม่ทราบ" (initialState "คำขอ" none)).auto_category
        = some "หนังสือภายใน"
      ∧ (classify_category "ไม่ทราบ"
          (initialState "คำขอ" none)).classification_confidence = 1 / 2) :=
  ⟨(C6_classification_deterministic "หนังสือภายนอก" (initialState "คำขอ" none)
      (by decide)).1 "หนังสือภายนอก" (by decide),
   (C6_classification_deterministic "ไม่ทราบ" (initialState "คำขอ" none)
      (by decide)).2 (by decide)⟩

theorem C8_counterexample :
    (extract_user_data "125990").year = some "2599"
    ∧ occursAsWholeDigitToken "125990" "2599" = false := by
  constructor
  · rfl
  · rfl

theorem reSearch_suffix {α : Type} (tryAt : List Char → Option α) :
    ∀ (cs : List Char) (r : α), reSearch tryAt cs = some r →
      ∃ pre suf, cs = pre ++ suf ∧ tryAt suf = some r := by
  intro cs
  induction cs with
  | nil =>
    intro r h
    exact ⟨[], [], rfl, h⟩
  | cons c rest ih =>
    intro r h
    rw [reSearch] at h
    cases htry : tryAt (c :: rest) with
    | some v =>
      rw [htry] at h
      simp only at h
      exact ⟨[], c :: rest, rfl, htry.trans (by rw [h])⟩
    | none =>
      rw [htry] at h
      obtain ⟨pre, suf, heq, hat⟩ := ih r h
      exact ⟨c :: pre, suf, by rw [heq]; rfl, hat⟩

theorem tryYearAltAt_shape (cs : List Char) (y : String)
    (h : tryYearAltAt cs = some y) :
    ∃ d t, isPyDigit d = true ∧ y = String.mk ['2', '5', '6', d]
      ∧ cs = ['2', '5', '6', d] ++ t := by
  unfold tryYearAltAt at h
  split at h
  · next d t =>
    split at h
    · next hd => exact ⟨d, t, hd, (Option.some_inj.mp h).symm, rfl⟩
    · exact absurd h (by simp)
  · exact absurd h (by simp)

theorem tryYearAt_shape (cs : List Char) (y : String)
    (h : tryYearAt cs = some y) :
    ∃ d1 d2 t, isPyDigit d1 = true ∧ isPyDigit d2 = true
      ∧ y = String.mk ['2', '5', d1, d2] ∧ cs = ['2', '5', d1, d2] ++ t := by
  unfold tryYearAt at h
  split at h
  · next d1 d2 t =>
    split at h
    · next hd =>
      rw [Bool.and_eq_true] at hd
      exact ⟨d1, d2, t, hd.1, hd.2, (Option.some_inj.mp h).symm, rfl⟩
    · obtain ⟨d, t2, hd, hy, hcs⟩ := tryYearAltAt_shape _ _ h
      obtain ⟨h6, hdd, ht⟩ : d1 = '6' ∧ d2 = d ∧ t = t2 := by simpa using hcs
      exact ⟨'6', d, t2, by decide, hd, hy, by rw [h6, hdd, ht]; rfl⟩
  · obtain ⟨d, t2, hd, hy, hcs⟩ := tryYearAltAt_shape _ _ h
    exact ⟨'6', d, t2, by decide, hd, hy, hcs⟩

/-- C8 (amended): a non-null year extracted by `extract_user_data` is a
4-character string `25dd` with `d` digits — hence reading its digits gives a
value in 2500–2599, the union of the claimed ranges — and it occurs as a
contiguous substring of the request; the pattern `(25\d{2}|256\d)` carries no
boundary anchors, so the match may sit inside a longer digit run. -/
theorem C8_year_extraction_amended (user_request y : String)
    (h : (extract_user_data user_request).year = some y) :
    ∃ d1 d2, isPyDigit d1 = true ∧ isPyDigit d2 = true
      ∧ y = String.mk ['2', '5', d1, d2]
      ∧ ∃ pre post, user_request.toList = pre ++ y.toList ++ post := by
  have h2 : reSearch tryYearAt user_request.toList = some y := by
    simpa [extract_user_data] using h
  obtain ⟨pre, suf, heq, hat⟩ := reSearch_suffix _ _ _ h2
  obtain ⟨d1, d2, t, hd1, hd2, hy, hsuf⟩ := tryYearAt_shape _ _ hat
  refine ⟨d1, d2, hd1, hd2, hy, pre, t, ?_⟩
  rw [heq, hsuf, hy]
  simp [String.toList]

theorem C8_year_extraction_amended_witness :
    ∃ d1 d2, isPyDigit d1 = true ∧ isPyDigit d2 = true
      ∧ "2569" = String.mk ['2', '5', d1, d2]
      ∧ ∃ pre post, ("ปี 2569").toList = pre ++ ("2569").toList ++ post :=
  C8_year_extraction_amended "ปี 2569" "2569" (by decide)

theorem C7_counterexample :
    (String.mk (List.replicate 197 'a')).length < 200
    ∧ (retrieve_context (fun _ => ([], []))
        (fun _ => .str (String.mk (List.replicate 197 'a')))
        (fun _ => some "ตัวอย่างเอกสาร") (initialState "คำขอ" (some "หนังสือภายใน"))).rag_examples
        = [String.mk (List.replicate 197 'a')] := by
  constructor
  · decide
  · rfl

/-- C7 (amended): `retrieve_context` compares the 200-character threshold
with the length of the Python rendering `str(rag_examples)` (for a single
plain example, its length plus 4), not with the raw context length: whenever
the example bag is empty or that rendering is shorter than 200 characters and
the category's fallback example exists and is non-empty, the fallback is
appended; and with such a fallback available the returned bag is never
empty. -/
theorem C7_sparse_context_fallback_amended
    (getEnt : String → List String × List String) (ragQuery : String → RagResult)
    (fallbackFor : String → Option String) (s : DocumentState) (ex : String)
    (hfb : fallbackFor (resolveCategory s) = some ex) (hex : ex ≠ "") :
    (((ragExamplesOf (ragQuery (buildSearchQuery s.user_request))).isEmpty
        || decide ((pyStrOfList (ragExamplesOf
            (ragQuery (buildSearchQuery s.user_request)))).length < 200)) = true →
      (retrieve_context getEnt ragQuery fallbackFor s).rag_examples
        = ragExamplesOf (ragQuery (buildSearchQuery s.user_request)) ++ [ex])
    ∧ (retrieve_context getEnt ragQuery fallbackFor s).rag_examples ≠ [] := by
  have hbeq : (ex == "") = false := by
    rw [beq_eq_false_iff_ne]
    exact hex
  constructor
  · intro hcond
    simp [retrieve_context, hfb, hcond, hbeq]
  · by_cases hcond : ((ragExamplesOf (ragQuery (buildSearchQuery s.user_request))).isEmpty
        || decide ((pyStrOfList (ragExamplesOf
            (ragQuery (buildSearchQuery s.user_request)))).length < 200)) = true
    · simp [retrieve_context, hfb, hcond, hbeq]
    · rw [Bool.not_eq_true] at hcond
      simp only [retrieve_context, hfb, hcond, Bool.false_eq_true, if_false]
      intro hnil
      rw [hnil] at hcond
      exact absurd hcond (by decide)

theorem C7_sparse_context_fallback_amended_witness :
    (((ragExamplesOf ((fun _ => RagResult.str "") (buildSearchQuery "คำขอ"))).isEmpty
        || decide ((pyStrOfList (ragExamplesOf ((fun _ => RagResult.str "")
            (buildSearchQuery "คำขอ")))).length < 200)) = true →
      (retrieve_context (fun _ => ([], [])) (fun _ => RagResult.str "")
        (fun _ => some "ตัวอย่างเอกสาร")
        (initialState "คำขอ" (some "หนังสือภายใน"))).rag_examples
        = ragExamplesOf ((fun _ => RagResult.str "") (buildSearchQuery "คำขอ"))
          ++ ["ตัวอย่างเอกสาร"])
    ∧ (retrieve_context (fun _ => ([], [])) (fun _ => RagResult.str "")
        (fun _ => some "ตัวอย่างเอกสาร")
        (initialState "คำขอ" (some "หนังสือภายใน"))).rag_examples ≠ [] :=
  C7_sparse_context_fallback_amended (fun _ => ([], [])) (fun _ => RagResult.str "")
    (fun _ => some "ตัวอย่างเอกสาร") (initialState "คำขอ" (some "หนังสือภายใน"))
    "ตัวอย่างเอกสาร" rfl (by decide)

theorem C4_counterexample :
    (deepseek_complete (fun _ => .exn "network rate high") (some 1)).1
      = .error (.rateLimitErr 2)
    ∧ isRateLimitMsg "network rate high" = false
    ∧ isTransientMsg "network rate high" = true := by
  refine ⟨rfl, by decide, by decide⟩

theorem deepseekAttempts_cons_retryable (retries : Nat) (oracle : Nat → LLMOutcome)
    (a : Nat) (rest : List Nat) (le : LastError) (sleeps : List ℚ)
    (h : retryableFail (oracle a)) :
    ∃ sl2, deepseekAttempts retries oracle (a :: rest) le sleeps
      = deepseekAttempts retries oracle rest (asLastError (oracle a)) sl2 := by
  rcases h with ht | ⟨m, hm, hsig⟩
  · refine ⟨if a < retries then sleeps ++ [LLM_RETRY_DELAY * 2 ^ a] else sleeps, ?_⟩
    simp [deepseekAttempts, asLastError, ht]
  · by_cases hr : (pyIn "rate" (pyLower m) && pyIn "limit" (pyLower m)) = true
    · refine ⟨if a < retries then sleeps ++ [LLM_RETRY_DELAY * 2 ^ a * 2] else sleeps, ?_⟩
      simp [deepseekAttempts, asLastError, hm, hr]
    · have htr : (["connection", "network", "timeout", "502", "503", "504"].any
          (fun x => pyIn x (pyLower m))) = true := by
        rcases hsig with hsig | hsig
        · exact absurd hsig hr
        · exact hsig
      refine ⟨if a < retries then sleeps ++ [LLM_RETRY_DELAY * 2 ^ a] else sleeps, ?_⟩
      rw [Bool.and_eq_true] at hr
      simp [deepseekAttempts, asLastError, hm, hr, htr]

theorem deepseekAttempts_exhaust (retries : Nat) (oracle : Nat → LLMOutcome) :
    ∀ (l : List Nat) (lastA : Nat), l.getLast? = some lastA →
      (∀ x ∈ l, retryableFail (oracle x)) →
      ∀ (le : LastError) (sleeps : List ℚ),
        (deepseekAttempts retries oracle l le sleeps).1
          = .error (exhaustedRaise retries (asLastError (oracle lastA))) := by
  intro l
  induction l with
  | nil => intro lastA h; exact absurd h (by simp)
  | cons a rest ih =>
    intro lastA hlast hall le sleeps
    obtain ⟨sl2, heq⟩ := deepseekAttempts_cons_retryable retries oracle a rest le
      sleeps (hall a (List.mem_cons_self a rest))
    rw [heq]
    cases rest with
    | nil =>
      have : a = lastA := by simpa using hlast
      subst this
      rfl
    | cons b t =>
      have hlast2 : (b :: t).getLast? = some lastA := by
        rw [← hlast]
        exact List.getLast?_cons_cons.symm
      exact ih lastA hlast2 (fun x hx => hall x (List.mem_cons_of_mem a hx)) _ _

/-- C4 (amended): when all `retries + 1` attempts fail with retryable errors,
the exception finally raised carries the attempt count `retries + 1` and is
classified from the last observed failure by `exhaustedRaise`: a timeout kind
for a timeout, the rate-limit kind whenever the last message merely contains
`"rate"` (even if the in-loop signature `"rate" and "limit"` never matched,
so a transient failure such as "network rate high" raises `LLMRateLimitError`
rather than the generic `LLMError`), and the generic kind otherwise. -/
theorem C4_exhaustion_raises_last_kind (retries : Nat) (oracle : Nat → LLMOutcome)
    (h : ∀ a, a ≤ retries → retryableFail (oracle a)) :
    (deepseek_complete oracle (some retries)).1
      = .error (exhaustedRaise retries (asLastError (oracle retries))) := by
  unfold deepseek_complete
  apply deepseekAttempts_exhaust
  · rw [List.range_succ]
    exact List.getLast?_concat _
  · intro x hx
    exact h x (Nat.lt_succ_iff.mp (List.mem_range.mp hx))

theorem C4_exhaustion_raises_last_kind_witness :
    (deepseek_complete (fun _ => .timeout) (some 0)).1 = .error (.timeoutErr 1) :=
  (C4_exhaustion_raises_last_kind 0 (fun _ => .timeout)
    (fun _ _ => Or.inl rfl)).trans rfl

/-- C5: with the configured base delay `1.0` and `3` retries, a run whose
every attempt fails with a rate-limit-signature error sleeps `2, 4, 8`
seconds — the base exponential schedule doubled, strictly increasing — and
after the 4th failed attempt raises `LLMRateLimitError` (never the generic
`LLMError`). -/
theorem C5_rate_limit_backoff_schedule (oracle : Nat → LLMOutcome)
    (h : ∀ a, a ≤ 3 → ∃ m, oracle a = .exn m ∧ isRateLimitMsg m = true) :
    (deepseek_complete oracle (some 3)).1 = .error (.rateLimitErr 4)
    ∧ (deepseek_complete oracle (some 3)).2 = [2, 4, 8]
    ∧ List.Chain' (· < ·) (deepseek_complete oracle (some 3)).2 := by
  obtain ⟨m0, h0, r0⟩ := h 0 (by norm_num)
  obtain ⟨m1, h1, r1⟩ := h 1 (by norm_num)
  obtain ⟨m2, h2, r2⟩ := h 2 (by norm_num)
  obtain ⟨m3, h3, r3⟩ := h 3 (by norm_num)
  rw [isRateLimitMsg, Bool.and_eq_true] at r0 r1 r2 r3
  have hrange : List.range (3 + 1) = [0, 1, 2, 3] := rfl
  have hres : deepseek_complete oracle (some 3)
      = (.error (.rateLimitErr 4),
         [LLM_RETRY_DELAY * 2 ^ 0 * 2, LLM_RETRY_DELAY * 2 ^ 1 * 2,
          LLM_RETRY_DELAY * 2 ^ 2 * 2]) := by
    unfold deepseek_complete
    simp only [Option.getD]
    rw [hrange]
    simp [deepseekAttempts, h0, h1, h2, h3, r0.1, r0.2, r1.1, r1.2, r2.1, r2.2,
      r3.1, r3.2, exhaustedRaise]
  have hsl : [LLM_RETRY_DELAY * 2 ^ 0 * 2, LLM_RETRY_DELAY * 2 ^ 1 * 2,
      LLM_RETRY_DELAY * 2 ^ 2 * 2] = ([2, 4, 8] : List ℚ) := by
    norm_num [LLM_RETRY_DELAY]
  refine ⟨by rw [hres], by rw [hres, hsl], ?_⟩
  rw [hres, hsl]
  norm_num [List.chain'_cons]

theorem C5_rate_limit_backoff_schedule_witness :
    (deepseek_complete (fun _ => .exn "Rate limit exceeded") (some 3)).1
      = .error (.rateLimitErr 4)
    ∧ (deepseek_complete (fun _ => .exn "Rate limit exceeded") (some 3)).2 = [2, 4, 8]
    ∧ List.Chain' (· < ·)
        (deepseek_complete (fun _ => .exn "Rate limit exceeded") (some 3)).2 :=
  C5_rate_limit_backoff_schedule (fun _ => .exn "Rate limit exceeded")
    (fun _ _ => ⟨"Rate limit exceeded", rfl, by decide⟩)
